import Mathlib

/-!
Verification of the record archival/restoration subsystem
(`maps/management/commands/archive_old_records.py` and
`maps/management/commands/restore_archived_records.py`).

The five record kinds (AssessmentRecord, ReportRecord, CertificateRecord,
FloodRecordActivity, UserLog) all carry the three archival fields
`timestamp`, `is_archived`, `archived_at`; the four maps models declare them
in `maps/models.py`, and UserLog (declared in `users/models.py`, which is
not part of this source snapshot) carries the same trio per the data model
section of the design document.  Instants (datetimes and parsed dates) are
modelled as integers: the archival core only ever compares instants by
order, so any order-embedding of the time line is adequate.
-/

namespace ArchiveRestore

/-- An archivable record: the three archival fields shared by all five
kinds, plus `payload`, which stands for the kind-specific business fields
(location, risk codes, ...) that the archival core never touches. -/
structure Record where
  timestamp : Int
  is_archived : Bool
  archived_at : Option Int
  payload : Nat
deriving DecidableEq

/-- The record store: one table per record kind. -/
structure DB where
  assessments : List Record
  reports : List Record
  certificates : List Record
  flood_activities : List Record
  user_logs : List Record
deriving DecidableEq

/-- Per-kind counts plus their sum, as built by `_count_records`,
`_archive_records` and `_restore_records` (`counts['total'] =
sum(counts.values())`). -/
structure Counts where
  assessments : Nat
  reports : Nat
  certificates : Nat
  flood_activities : Nat
  user_logs : Nat
deriving DecidableEq

def Counts.total (c : Counts) : Nat :=
  c.assessments + c.reports + c.certificates + c.flood_activities + c.user_logs

/-- The five record kinds, as named by the `--type` choices of
`restore_archived_records` (`add_arguments`, choices list). -/
inductive RType
  | assessments
  | reports
  | certificates
  | flood_activities
  | user_logs
deriving DecidableEq

/-- Project a kind's table out of the store. -/
def dbKind : RType → DB → List Record
  | .assessments, db => db.assessments
  | .reports, db => db.reports
  | .certificates, db => db.certificates
  | .flood_activities, db => db.flood_activities
  | .user_logs, db => db.user_logs

/-! ## Archive command (`archive_old_records.py`) -/

/-- The archive filter `filter(timestamp__lt=cutoff_date, is_archived=False)`
used identically in `_count_records` and `_archive_records`. -/
def archivePred (cutoff : Int) (r : Record) : Bool :=
  decide (r.timestamp < cutoff) && (r.is_archived == false)

/-- Effect of `.update(is_archived=True, archived_at=now)` on one row of the
filtered queryset: matching rows flip, others are untouched. -/
def archiveOne (cutoff now : Int) (r : Record) : Record :=
  if archivePred cutoff r then
    { r with is_archived := true, archived_at := some now }
  else r

/-- One kind's bulk update
`Model.objects.filter(timestamp__lt=cutoff, is_archived=False).update(is_archived=True, archived_at=now)`. -/
def archiveKind (cutoff now : Int) (rs : List Record) : List Record :=
  rs.map (archiveOne cutoff now)

/-- The affected-row count the bulk update returns: the number of rows the
filter matched. -/
def archiveKindCount (cutoff : Int) (rs : List Record) : Nat :=
  (rs.filter (archivePred cutoff)).length

/-- `Command._count_records` of `archive_old_records.py`: per-kind counts of
rows the archive predicate matches; `user_logs` is forced to 0 when
`include_logs` is off. -/
def countArchiveRecords (cutoff : Int) (include_logs : Bool) (db : DB) : Counts :=
  { assessments := archiveKindCount cutoff db.assessments
    reports := archiveKindCount cutoff db.reports
    certificates := archiveKindCount cutoff db.certificates
    flood_activities := archiveKindCount cutoff db.flood_activities
    user_logs := if include_logs then archiveKindCount cutoff db.user_logs else 0 }

/-- `Command._archive_records` (lines 166-216): the five bulk updates, in
source order, each on its own table; `user_logs` is skipped (count 0) when
`include_logs` is off.  The updates touch disjoint tables, so the
sequential composition is the per-field record update.  Returns the new
store and the per-kind affected-row counts. -/
def archiveRecords (cutoff now : Int) (include_logs : Bool) (db : DB) : DB × Counts :=
  ({ assessments := archiveKind cutoff now db.assessments
     reports := archiveKind cutoff now db.reports
     certificates := archiveKind cutoff now db.certificates
     flood_activities := archiveKind cutoff now db.flood_activities
     user_logs := if include_logs then archiveKind cutoff now db.user_logs else db.user_logs },
   { assessments := archiveKindCount cutoff db.assessments
     reports := archiveKindCount cutoff db.reports
     certificates := archiveKindCount cutoff db.certificates
     flood_activities := archiveKindCount cutoff db.flood_activities
     user_logs := if include_logs then archiveKindCount cutoff db.user_logs else 0 })

/-- `str.lower()` character by character (`Char.toLower` performs the
ASCII case folding; the affirmation token `yes` is ASCII). -/
def strLower (s : String) : String :=
  ⟨s.data.map Char.toLower⟩

/-- `response.lower() == 'yes'` (line 164 of the archive command, line 192
of the restore command). -/
def confirmResponse (response : String) : Bool :=
  strLower response == "yes"

/-- `Command._confirm_archiving` (lines 150-164): with zero matches it
reports "No records to archive" and declines without prompting; otherwise
it proceeds exactly when the typed response lowercases to `yes`. -/
def confirmArchiving (counts : Counts) (response : String) : Bool :=
  if counts.total = 0 then false else confirmResponse response

/-- Outcome of a command invocation: either one of the `CommandError`
raises of `handle`, or one of its terminal messages. -/
inductive CmdOutcome
  | errModeMissing
  | errModeBoth
  | errYearsTooSmall
  | errNoSelector
  | errBadDateFrom
  | errBadDateTo
  | dryRunDone
  | nothingToDo
  | cancelled
  | completed (counts : Counts)
deriving DecidableEq

/-- `Command.handle` of `archive_old_records.py`.  `now0` is the
`timezone.now()` of line 67 (the run start, from which the cutoff is
computed as now − 365·years days); `now1` is the `timezone.now()` of line
169 inside `_archive_records` (stamped into `archived_at`); `response` is
what the operator types at the confirmation prompt.  Returns the outcome
and the resulting store; `CommandError` outcomes leave the store
untouched.  The `nothingToDo` outcome is the `total == 0` early-decline
branch of `_confirm_archiving`; `cancelled` is a declined prompt. -/
def archiveHandle (years : Int) (dry_run execute include_logs : Bool)
    (now0 now1 : Int) (response : String) (db : DB) : CmdOutcome × DB :=
  if !dry_run && !execute then (.errModeMissing, db)
  else if dry_run && execute then (.errModeBoth, db)
  else if years < 1 then (.errYearsTooSmall, db)
  else
    let cutoff := now0 - 365 * years
    let counts := countArchiveRecords cutoff include_logs db
    if dry_run then (.dryRunDone, db)
    else if counts.total = 0 then (.nothingToDo, db)
    else if confirmResponse response then
      let res := archiveRecords cutoff now1 include_logs db
      (.completed res.2, res.1)
    else (.cancelled, db)

/-! ## Restore command (`restore_archived_records.py`) -/

/-- `Command._get_queryset` (lines 130-137) as a row predicate:
`is_archived=True`, optionally narrowed by `timestamp__gte=date_from` and
`timestamp__lte=date_to` (both bounds inclusive, each applied only when
the corresponding parsed date is present). -/
def restorePred (date_from date_to : Option Int) (r : Record) : Bool :=
  (r.is_archived == true)
    && (match date_from with
        | none => true
        | some d => decide (d ≤ r.timestamp))
    && (match date_to with
        | none => true
        | some d => decide (r.timestamp ≤ d))

/-- Effect of `.update(is_archived=False, archived_at=None)` on one row of
the `_get_queryset` queryset. -/
def restoreOne (date_from date_to : Option Int) (r : Record) : Record :=
  if restorePred date_from date_to r then
    { r with is_archived := false, archived_at := none }
  else r

/-- One kind's bulk restore update. -/
def restoreKind (date_from date_to : Option Int) (rs : List Record) : List Record :=
  rs.map (restoreOne date_from date_to)

/-- Affected-row count of one kind's restore update. -/
def restoreKindCount (date_from date_to : Option Int) (rs : List Record) : Nat :=
  (rs.filter (restorePred date_from date_to)).length

/-- The guard `restore_all or record_type == '<kind>'` repeated for each
kind in `_count_records` and `_restore_records`. -/
def selects (restore_all : Bool) (record_type : Option RType) (t : RType) : Bool :=
  restore_all || decide (record_type = some t)

/-- `Command._count_records` of `restore_archived_records.py` (lines
139-165): counts start at 0 and a kind is counted only when its guard
fires. -/
def countRestoreRecords (restore_all : Bool) (record_type : Option RType)
    (date_from date_to : Option Int) (db : DB) : Counts :=
  { assessments :=
      if selects restore_all record_type .assessments then
        restoreKindCount date_from date_to db.assessments else 0
    reports :=
      if selects restore_all record_type .reports then
        restoreKindCount date_from date_to db.reports else 0
    certificates :=
      if selects restore_all record_type .certificates then
        restoreKindCount date_from date_to db.certificates else 0
    flood_activities :=
      if selects restore_all record_type .flood_activities then
        restoreKindCount date_from date_to db.flood_activities else 0
    user_logs :=
      if selects restore_all record_type .user_logs then
        restoreKindCount date_from date_to db.user_logs else 0 }

/-- `Command._restore_records` (lines 195-236): each kind's bulk update
runs only when its guard fires (an unselected kind contributes count 0 to
the total, matching `sum` over the keys actually set). -/
def restoreRecords (restore_all : Bool) (record_type : Option RType)
    (date_from date_to : Option Int) (db : DB) : DB × Counts :=
  ({ assessments :=
       if selects restore_all record_type .assessments then
         restoreKind date_from date_to db.assessments else db.assessments
     reports :=
       if selects restore_all record_type .reports then
         restoreKind date_from date_to db.reports else db.reports
     certificates :=
       if selects restore_all record_type .certificates then
         restoreKind date_from date_to db.certificates else db.certificates
     flood_activities :=
       if selects restore_all record_type .flood_activities then
         restoreKind date_from date_to db.flood_activities else db.flood_activities
     user_logs :=
       if selects restore_all record_type .user_logs then
         restoreKind date_from date_to db.user_logs else db.user_logs },
   countRestoreRecords restore_all record_type date_from date_to db)

/-- `Command._confirm_restoration` (lines 179-193): textually the same gate
as `_confirm_archiving`. -/
def confirmRestoration (counts : Counts) (response : String) : Bool :=
  if counts.total = 0 then false else confirmResponse response

/-- Python truthiness of an optional string option (`if date_from:`): falsy
when absent or empty. -/
def strTruthy : Option String → Bool
  | none => false
  | some s => !s.isEmpty

def isLeapYear (y : Nat) : Bool :=
  (y % 4 == 0 && y % 100 != 0) || (y % 400 == 0)

def daysInMonth (y m : Nat) : Nat :=
  if m == 2 then (if isLeapYear y then 29 else 28)
  else if m == 4 || m == 6 || m == 9 || m == 11 then 30
  else 31

def allDigits (s : String) : Bool :=
  !s.isEmpty && s.all Char.isDigit

/-- `datetime.strptime(s, '%Y-%m-%d')` (lines 85 and 91): a 4-digit year,
1-2 digit month and day, forming a valid calendar date.  The parsed date is
encoded as the integer y·10000 + m·100 + d, an order-embedding of calendar
dates into the modelled time line. -/
def parseDate (s : String) : Option Int :=
  match s.splitOn "-" with
  | [ys, ms, ds] =>
    match ys.toNat?, ms.toNat?, ds.toNat? with
    | some y, some m, some d =>
      if allDigits ys && allDigits ms && allDigits ds
          && ys.length == 4 && ms.length ≤ 2 && ds.length ≤ 2
          && 1 ≤ m && m ≤ 12 && 1 ≤ d && d ≤ daysInMonth y m then
        some (Int.ofNat (y * 10000 + m * 100 + d))
      else none
    | _, _, _ => none
  | _ => none

/-- Lines 81-93 of `handle`: a date option that is falsy stays `None`; a
truthy one is parsed, and a parse failure raises `CommandError` (modelled
as `none`). -/
def parseOptDate (s? : Option String) : Option (Option Int) :=
  if strTruthy s? then
    match s? with
    | some s => (parseDate s).map some
    | none => none
  else some none

/-- The option set of `restore_archived_records` as read at the top of
`handle` (lines 58-63). -/
structure RestoreOptions where
  dry_run : Bool
  execute : Bool
  restore_all : Bool
  record_type : Option RType
  date_from : Option String
  date_to : Option String
deriving DecidableEq

/-- `Command.handle` of `restore_archived_records.py`: mode validation,
then the selector check of line 75 (`not restore_all and not record_type
and not date_from` — note `date_to` is not consulted), then date parsing,
counting, the dry-run early return, and the confirmation-gated mutation. -/
def restoreHandle (opts : RestoreOptions) (response : String) (db : DB) :
    CmdOutcome × DB :=
  if !opts.dry_run && !opts.execute then (.errModeMissing, db)
  else if opts.dry_run && opts.execute then (.errModeBoth, db)
  else if (!opts.restore_all && decide (opts.record_type = none)
            && !strTruthy opts.date_from) then
    (.errNoSelector, db)
  else
    match parseOptDate opts.date_from with
    | none => (.errBadDateFrom, db)
    | some d1 =>
      match parseOptDate opts.date_to with
      | none => (.errBadDateTo, db)
      | some d2 =>
        let counts := countRestoreRecords opts.restore_all opts.record_type d1 d2 db
        if opts.dry_run then (.dryRunDone, db)
        else if counts.total = 0 then (.nothingToDo, db)
        else if confirmResponse response then
          let res := restoreRecords opts.restore_all opts.record_type d1 d2 db
          (.completed res.2, res.1)
        else (.cancelled, db)

/-! ## Transaction structure

`_archive_records` and `_restore_records` are each decorated
`@transaction.atomic` (line 166 of the archive command, line 195 of the
restore command): the entire method body — every kind's bulk update — runs
inside one database transaction.  A store failure during any update
statement propagates out of the method, and on exiting the atomic block
with an exception the whole transaction is rolled back, so no update of
that run commits.  `failAt = some k` models the store failing during the
k-th update statement of the run; `none` models a failure-free run. -/

/-- Observable store effect of one `_archive_records` invocation under its
`@transaction.atomic` decorator: any mid-run store failure rolls back every
update of the run. -/
def archiveRecordsRun (cutoff now : Int) (include_logs : Bool)
    (failAt : Option Nat) (db : DB) : DB :=
  match failAt with
  | some _ => db
  | none => (archiveRecords cutoff now include_logs db).1

/-- Observable store effect of one `_restore_records` invocation under its
`@transaction.atomic` decorator. -/
def restoreRecordsRun (restore_all : Bool) (record_type : Option RType)
    (date_from date_to : Option Int) (failAt : Option Nat) (db : DB) : DB :=
  match failAt with
  | some _ => db
  | none => (restoreRecords restore_all record_type date_from date_to db).1

/-- The i-th update statement of `_archive_records` in source order
(assessments, reports, certificates, flood activities, user logs), as an
individual store effect. -/
def archiveStepApply (cutoff now : Int) (include_logs : Bool) : Nat → DB → DB
  | 0, db => { db with assessments := archiveKind cutoff now db.assessments }
  | 1, db => { db with reports := archiveKind cutoff now db.reports }
  | 2, db => { db with certificates := archiveKind cutoff now db.certificates }
  | 3, db => { db with flood_activities := archiveKind cutoff now db.flood_activities }
  | 4, db => if include_logs then { db with user_logs := archiveKind cutoff now db.user_logs } else db
  | _ + 5, db => db

/-- The first `k` update statements of `_archive_records`, applied in
source order. -/
def archiveStepsUpTo (cutoff now : Int) (include_logs : Bool) (k : Nat) (db : DB) : DB :=
  (List.range k).foldl (fun d i => archiveStepApply cutoff now include_logs i d) db

/-- Modelled from the spec, for comparison with the code (claim C1): each
kind's bulk update in its own independent transaction, so a store failure
during the k-th update statement leaves the earlier statements committed
and the later ones unapplied. -/
def archiveRecordsPerKindRun (cutoff now : Int) (include_logs : Bool)
    (failAt : Option Nat) (db : DB) : DB :=
  match failAt with
  | some k => archiveStepsUpTo cutoff now include_logs k db
  | none => archiveStepsUpTo cutoff now include_logs 5 db

/-! ## Invariants and fixtures -/

/-- The pairing invariant on one record: `archived_at` is non-null exactly
when `is_archived` is true. -/
def Record.pairingOK (r : Record) : Prop :=
  r.archived_at ≠ none ↔ r.is_archived = true

instance (r : Record) : Decidable r.pairingOK := by
  unfold Record.pairingOK; infer_instance

/-- The pairing invariant over the whole store. -/
def DB.pairingOK (db : DB) : Prop :=
  (∀ r ∈ db.assessments, r.pairingOK) ∧
  (∀ r ∈ db.reports, r.pairingOK) ∧
  (∀ r ∈ db.certificates, r.pairingOK) ∧
  (∀ r ∈ db.flood_activities, r.pairingOK) ∧
  (∀ r ∈ db.user_logs, r.pairingOK)

instance (db : DB) : Decidable db.pairingOK := by
  unfold DB.pairingOK; infer_instance

/-- Fixture: an old, active assessment row. -/
def recA : Record := ⟨0, false, none, 1⟩

/-- Fixture: an old, active report row. -/
def recR : Record := ⟨0, false, none, 2⟩

/-- Fixture: a store holding one archivable assessment and one archivable
report. -/
def dbAR : DB := ⟨[recA], [recR], [], [], []⟩

/-- Fixture: a store holding one archivable assessment and one old, active
user log. -/
def dbLog : DB := ⟨[recA], [], [], [], [⟨0, false, none, 9⟩]⟩

/-- Fixture: the empty store. -/
def dbEmpty : DB := ⟨[], [], [], [], []⟩

/-! ## Helper lemmas -/

theorem archiveOne_not_pred (cutoff now : Int) (r : Record) :
    archivePred cutoff (archiveOne cutoff now r) = false := by
  unfold archiveOne
  split_ifs with h
  · simp [archivePred]
  · simpa using h

theorem archiveOne_idem (cutoff now now2 : Int) (r : Record) :
    archiveOne cutoff now2 (archiveOne cutoff now r) = archiveOne cutoff now r := by
  have h := archiveOne_not_pred cutoff now r
  conv_lhs => rw [archiveOne]
  rw [h]
  simp

theorem archiveKindCount_after (cutoff now : Int) (rs : List Record) :
    archiveKindCount cutoff (archiveKind cutoff now rs) = 0 := by
  unfold archiveKindCount archiveKind
  rw [List.length_eq_zero, List.filter_eq_nil_iff]
  intro a ha
  simp only [List.mem_map] at ha
  obtain ⟨r, hr, rfl⟩ := ha
  simp [archiveOne_not_pred]

theorem archiveKind_idem (cutoff now now2 : Int) (rs : List Record) :
    archiveKind cutoff now2 (archiveKind cutoff now rs) = archiveKind cutoff now rs := by
  simp [archiveKind, List.map_map, Function.comp, archiveOne_idem]

theorem archivePred_iff (cutoff : Int) (r : Record) :
    archivePred cutoff r = true ↔ (r.timestamp < cutoff ∧ r.is_archived = false) := by
  simp [archivePred]

theorem archiveOne_of_pred (cutoff now : Int) (r : Record)
    (h : r.timestamp < cutoff ∧ r.is_archived = false) :
    archiveOne cutoff now r
      = { r with is_archived := true, archived_at := some now } := by
  have hp : archivePred cutoff r = true := (archivePred_iff cutoff r).2 h
  simp [archiveOne, hp]

theorem archiveOne_of_not_pred (cutoff now : Int) (r : Record)
    (h : ¬(r.timestamp < cutoff ∧ r.is_archived = false)) :
    archiveOne cutoff now r = r := by
  have hp : archivePred cutoff r = false := by
    rw [Bool.eq_false_iff, Ne, archivePred_iff]; exact h
  simp [archiveOne, hp]

theorem archiveKind_getElem (cutoff now : Int) (rs : List Record) (i : Nat)
    (r : Record) (hi : rs[i]? = some r) :
    (archiveKind cutoff now rs)[i]? = some (archiveOne cutoff now r) := by
  simp [archiveKind, List.getElem?_map, hi]

theorem restorePred_some_iff (d1 d2 : Int) (r : Record) :
    restorePred (some d1) (some d2) r = true
      ↔ (r.is_archived = true ∧ d1 ≤ r.timestamp ∧ r.timestamp ≤ d2) := by
  simp [restorePred, and_assoc]

theorem restoreOne_of_pred (d1 d2 : Option Int) (r : Record)
    (h : restorePred d1 d2 r = true) :
    restoreOne d1 d2 r = { r with is_archived := false, archived_at := none } := by
  simp [restoreOne, h]

theorem restoreKind_getElem (d1 d2 : Option Int) (rs : List Record) (i : Nat)
    (r : Record) (hi : rs[i]? = some r) :
    (restoreKind d1 d2 rs)[i]? = some (restoreOne d1 d2 r) := by
  simp [restoreKind, List.getElem?_map, hi]

theorem archiveOne_pairing (cutoff now : Int) (r : Record) (h : r.pairingOK) :
    (archiveOne cutoff now r).pairingOK := by
  unfold archiveOne
  split_ifs
  · simp [Record.pairingOK]
  · exact h

theorem restoreOne_pairing (d1 d2 : Option Int) (r : Record) (h : r.pairingOK) :
    (restoreOne d1 d2 r).pairingOK := by
  unfold restoreOne
  split_ifs
  · simp [Record.pairingOK]
  · exact h

theorem archiveKind_pairing (cutoff now : Int) (rs : List Record)
    (h : ∀ r ∈ rs, r.pairingOK) :
    ∀ r ∈ archiveKind cutoff now rs, r.pairingOK := by
  intro r hr
  rw [archiveKind, List.mem_map] at hr
  obtain ⟨a, ha, rfl⟩ := hr
  exact archiveOne_pairing cutoff now a (h a ha)

theorem restoreKind_pairing (d1 d2 : Option Int) (rs : List Record)
    (h : ∀ r ∈ rs, r.pairingOK) :
    ∀ r ∈ restoreKind d1 d2 rs, r.pairingOK := by
  intro r hr
  rw [restoreKind, List.mem_map] at hr
  obtain ⟨a, ha, rfl⟩ := hr
  exact restoreOne_pairing d1 d2 a (h a ha)

/-! ## Claims -/

/-- Claim C1 is false on the code: `_archive_records` runs under one
`@transaction.atomic` spanning every kind, so in a run over a store with
one archivable assessment and one archivable report, a store failure
during the second update statement (reports) also rolls back the
assessments update that completed before it.  The per-kind-transaction
semantics the claim asserts would leave the assessment archived; the code
leaves the store exactly as it was. -/
theorem C1_counterexample :
    archivePred 10 recA = true
    ∧ (archiveRecordsPerKindRun 10 5 false (some 1) dbAR).assessments.map
        Record.is_archived = [true]
    ∧ archiveRecordsRun 10 5 false (some 1) dbAR = dbAR
    ∧ (archiveRecordsRun 10 5 false (some 1) dbAR).assessments.map
        Record.is_archived = [false] := by
  decide

/-- Claim C1 (amended): for every execute invocation of archive or
restore, all record kinds' bulk updates run inside one atomic transaction
(the `@transaction.atomic` decorator on `_archive_records` /
`_restore_records`): a store failure mid-update on any kind rolls back
every kind's update of that run, leaving the store unchanged, and a
failure-free run applies all five update statements in source order. -/
theorem C1_amended_single_transaction (cutoff now : Int) (il : Bool) (k : Nat)
    (ra : Bool) (rt : Option RType) (d1 d2 : Option Int) (db : DB) :
    archiveRecordsRun cutoff now il (some k) db = db
    ∧ restoreRecordsRun ra rt d1 d2 (some k) db = db
    ∧ archiveRecordsRun cutoff now il none db = (archiveRecords cutoff now il db).1
    ∧ archiveStepsUpTo cutoff now il 5 db = (archiveRecords cutoff now il db).1
    ∧ restoreRecordsRun ra rt d1 d2 none db = (restoreRecords ra rt d1 d2 db).1 := by
  refine ⟨rfl, rfl, rfl, ?_, rfl⟩
  cases il <;> rfl

/-- Claim C4: dry-run never mutates — for any options, response and store,
both commands invoked with the dry-run flag leave the store unchanged
(every `is_archived`, `archived_at` and `timestamp` field included), since
every path of `handle` under `dry_run` returns before the mutating step. -/
theorem C4_dry_run_never_mutates (years : Int) (execute il : Bool)
    (now0 now1 : Int) (resp : String) (db : DB) (ex ra : Bool)
    (rt : Option RType) (df dt : Option String) :
    (archiveHandle years true execute il now0 now1 resp db).2 = db
    ∧ (restoreHandle ⟨true, ex, ra, rt, df, dt⟩ resp db).2 = db := by
  constructor
  · unfold archiveHandle
    split_ifs <;> first | rfl | simp_all
  · unfold restoreHandle
    repeat' split
    all_goals first | rfl | simp_all

/-- Claim C9: archiving is idempotent — a second `_archive_records` run
with the same cutoff mutates nothing (the store is unchanged) and its
update statements all report 0 affected rows, because the archive
predicate requires `is_archived=False` and the first run already
transitioned every qualifying row. -/
theorem C9_archive_idempotent (cutoff now now2 : Int) (il : Bool) (db : DB) :
    (archiveRecords cutoff now2 il (archiveRecords cutoff now il db).1).2
      = ⟨0, 0, 0, 0, 0⟩
    ∧ (archiveRecords cutoff now2 il (archiveRecords cutoff now il db).1).1
      = (archiveRecords cutoff now il db).1 := by
  cases il <;>
    simp [archiveRecords, archiveKindCount_after, archiveKind_idem]

/-- Claim C10: in the restore command, the `--all` flag dominates — every
kind's guard is `restore_all or record_type == ...`, so with `--all` set,
combining it with any `--type` counts and restores exactly as `--all`
alone does, every one of the five kinds included. -/
theorem C10_all_flag_dominates (rt : RType) (d1 d2 : Option Int) (db : DB) :
    restoreRecords true (some rt) d1 d2 db = restoreRecords true none d1 d2 db
    ∧ countRestoreRecords true (some rt) d1 d2 db
        = countRestoreRecords true none d1 d2 db
    ∧ (∀ t : RType, dbKind t (restoreRecords true (some rt) d1 d2 db).1
        = restoreKind d1 d2 (dbKind t db)) := by
  refine ⟨rfl, rfl, fun t => ?_⟩
  cases t <;> rfl

/-- Claim C2 is false as stated: in a confirmed archive execute run
without `--include-logs` (its default), user-log rows older than the
cutoff and not yet archived stay unarchived.  Concretely: a run with
years=2 at time 10000 over a store holding one archivable assessment and
one user log with timestamp 0 (well before the cutoff 10000 − 730)
completes with the assessment archived, yet the user log still has
`is_archived = false`. -/
theorem C2_counterexample :
    ((archiveHandle 2 false true false 10000 10000 "yes" dbLog).1
        = CmdOutcome.completed ⟨1, 0, 0, 0, 0⟩)
    ∧ (0 : Int) < 10000 - 365 * 2
    ∧ dbLog.user_logs.map Record.is_archived = [false]
    ∧ ((archiveHandle 2 false true false 10000 10000 "yes" dbLog).2).user_logs.map
        Record.is_archived = [false] := by
  decide

/-- Claim C2 (amended): after a confirmed archive execute run, for every
record kind that participates in the run — the four activity kinds always,
user logs only when `--include-logs` is set — every row whose timestamp is
strictly before the cutoff (run start minus 365·years days) and whose
`is_archived` was false now has `is_archived = true` and `archived_at` set
to an instant at or after the run start, and every other row of that kind
is unchanged. -/
theorem C2_amended_archive_postcondition (years now0 now1 : Int) (il : Bool)
    (resp : String) (db : DB) (counts : Counts) (db2 : DB)
    (hnow : now0 ≤ now1)
    (hrun : archiveHandle years false true il now0 now1 resp db
              = (CmdOutcome.completed counts, db2))
    (t : RType) (hsel : t ≠ RType.user_logs ∨ il = true)
    (i : Nat) (r : Record) (hi : (dbKind t db)[i]? = some r) :
    ∃ r', (dbKind t db2)[i]? = some r'
      ∧ (r.timestamp < now0 - 365 * years ∧ r.is_archived = false →
           r'.is_archived = true
           ∧ (∃ ts, r'.archived_at = some ts ∧ now0 ≤ ts)
           ∧ r'.timestamp = r.timestamp ∧ r'.payload = r.payload)
      ∧ (¬(r.timestamp < now0 - 365 * years ∧ r.is_archived = false) → r' = r) := by
  have hdb2 : db2 = (archiveRecords (now0 - 365 * years) now1 il db).1 := by
    unfold archiveHandle at hrun
    by_cases hy : years < 1
    · simp [hy] at hrun
    · by_cases h0 : (countArchiveRecords (now0 - 365 * years) il db).total = 0
      · simp [hy, h0] at hrun
      · by_cases hcf : confirmResponse resp = true
        · simp [hy, h0, hcf] at hrun
          exact hrun.2.symm
        · rw [Bool.not_eq_true] at hcf
          simp [hy, h0, hcf] at hrun
  subst hdb2
  have hkind : dbKind t ((archiveRecords (now0 - 365 * years) now1 il db).1)
      = archiveKind (now0 - 365 * years) now1 (dbKind t db) := by
    rcases hsel with hne | hil
    · cases t <;> first | rfl | exact absurd rfl hne
    · subst hil
      cases t <;> rfl
  rw [hkind]
  refine ⟨archiveOne (now0 - 365 * years) now1 r,
    archiveKind_getElem _ _ _ _ _ hi, ?_, ?_⟩
  · intro hp
    rw [archiveOne_of_pred _ _ _ hp]
    exact ⟨rfl, ⟨now1, rfl, hnow⟩, rfl, rfl⟩
  · intro hn
    rw [archiveOne_of_not_pred _ _ _ hn]

/-- Fixture: the store `dbAR` after a confirmed archive run with cutoff
9270 and archive time 10001. -/
def dbARafter : DB :=
  ⟨[⟨0, true, some 10001, 1⟩], [⟨0, true, some 10001, 2⟩], [], [], []⟩

/-- Witness for C2 (amended): a concrete confirmed run (years=2, run
start 10000, archive time 10001, store `dbAR`) instantiating every
hypothesis. -/
theorem C2_witness :
    ∃ r', (dbKind RType.assessments dbARafter)[0]? = some r'
      ∧ (recA.timestamp < 10000 - 365 * 2 ∧ recA.is_archived = false →
           r'.is_archived = true
           ∧ (∃ ts, r'.archived_at = some ts ∧ (10000 : Int) ≤ ts)
           ∧ r'.timestamp = recA.timestamp ∧ r'.payload = recA.payload)
      ∧ (¬(recA.timestamp < 10000 - 365 * 2 ∧ recA.is_archived = false) → r' = recA) :=
  C2_amended_archive_postcondition 2 10000 10001 false "yes" dbAR ⟨1, 1, 0, 0, 0⟩
    dbARafter (by decide) (by decide) RType.assessments (Or.inl (by decide))
    0 recA (by decide)

/-- Claim C3 is false as stated: supplying only `--date-to` (with a valid
mode flag) does not pass selector validation — line 75 of the restore
command tests only `restore_all`, `record_type` and `date_from`, so this
invocation raises the missing-selector CommandError. -/
theorem C3_counterexample :
    restoreHandle ⟨false, true, false, none, none, some "2023-12-31"⟩ "yes" dbEmpty
      = (CmdOutcome.errNoSelector, dbEmpty) := by
  decide

theorem restoreHandle_no_selector_outcome (dr ex ra : Bool) (rt : Option RType)
    (df dt : Option String) (resp : String) (db : DB)
    (hc : (!ra && decide (rt = none) && !strTruthy df) = false) :
    (restoreHandle ⟨dr, ex, ra, rt, df, dt⟩ resp db).1 ≠ CmdOutcome.errNoSelector := by
  unfold restoreHandle
  rcases h1 : parseOptDate df with _ | d1
  · cases dr <;> cases ex <;> simp [hc, h1]
  · rcases h2 : parseOptDate dt with _ | d2
    · cases dr <;> cases ex <;> simp [hc, h1, h2]
    · by_cases h0 : (countRestoreRecords ra rt d1 d2 db).total = 0
      · cases dr <;> cases ex <;> simp [hc, h1, h2, h0]
      · by_cases hcf : confirmResponse resp = true
        · cases dr <;> cases ex <;> simp [hc, h1, h2, h0, hcf]
        · rw [Bool.not_eq_true] at hcf
          cases dr <;> cases ex <;> simp [hc, h1, h2, h0, hcf]

/-- Claim C3 (amended): with a valid mode flag, the restore command fails
with the missing-selector error if and only if none of the `--all` flag,
the `--type` option, or a truthy `--date-from` is supplied; `--date-to`
alone does not count as a selector.  The error leaves the store
unchanged. -/
theorem C3_amended_selector_validation (opts : RestoreOptions) (resp : String)
    (db : DB) (hmode : opts.dry_run ≠ opts.execute) :
    ((restoreHandle opts resp db).1 = CmdOutcome.errNoSelector
       ↔ (opts.restore_all = false ∧ opts.record_type = none
            ∧ strTruthy opts.date_from = false))
    ∧ ((restoreHandle opts resp db).1 = CmdOutcome.errNoSelector →
        (restoreHandle opts resp db).2 = db) := by
  obtain ⟨dr, ex, ra, rt, df, dt⟩ := opts
  by_cases hc : (!ra && decide (rt = none) && !strTruthy df) = true
  · have hsel : ra = false ∧ rt = none ∧ strTruthy df = false := by
      simpa [Bool.and_eq_true, and_assoc] using hc
    cases dr <;> cases ex <;> simp_all [restoreHandle]
  · rw [Bool.not_eq_true] at hc
    have hne := restoreHandle_no_selector_outcome dr ex ra rt df dt resp db hc
    constructor
    · rw [iff_false_intro hne]
      simp only [false_iff]
      intro ⟨ha, hb, hd⟩
      subst ha; subst hb
      simp [hd] at hc
    · intro h
      exact absurd h hne

/-- Witness for C3 (amended): a concrete invocation with execute mode and
the `--all` flag set instantiates the mode hypothesis. -/
theorem C3_witness :
    ((restoreHandle ⟨false, true, true, none, none, none⟩ "no" dbEmpty).1
        = CmdOutcome.errNoSelector
      ↔ (true = false ∧ (none : Option RType) = none
           ∧ strTruthy none = false))
    ∧ ((restoreHandle ⟨false, true, true, none, none, none⟩ "no" dbEmpty).1
          = CmdOutcome.errNoSelector →
        (restoreHandle ⟨false, true, true, none, none, none⟩ "no" dbEmpty).2
          = dbEmpty) :=
  C3_amended_selector_validation ⟨false, true, true, none, none, none⟩ "no" dbEmpty
    (by decide)

/-- Claim C5: the execute-mode confirmation gate.  For the archive
command (with a valid years threshold) and the restore command (with a
valid selector and well-formed dates): a previewed total of 0
short-circuits with the nothing-to-do outcome and no mutation; with a
positive total, the store is mutated exactly when the operator's response
lowercases to the token `yes`, and any other response ends in the
cancelled outcome with no mutation and no error. -/
theorem C5_confirmation_gate (years now0 now1 : Int) (il : Bool)
    (resp : String) (db : DB) (ra : Bool) (rt : Option RType)
    (df dt : Option String) (d1 d2 : Option Int)
    (hyears : ¬ years < 1)
    (hsel : (!ra && decide (rt = none) && !strTruthy df) = false)
    (h1 : parseOptDate df = some d1) (h2 : parseOptDate dt = some d2) :
    (confirmArchiving (countArchiveRecords (now0 - 365 * years) il db) resp = true
       ↔ ((countArchiveRecords (now0 - 365 * years) il db).total ≠ 0
            ∧ strLower resp = "yes"))
    ∧ (confirmRestoration (countRestoreRecords ra rt d1 d2 db) resp = true
       ↔ ((countRestoreRecords ra rt d1 d2 db).total ≠ 0 ∧ strLower resp = "yes"))
    ∧ ((countArchiveRecords (now0 - 365 * years) il db).total = 0 →
        archiveHandle years false true il now0 now1 resp db
          = (CmdOutcome.nothingToDo, db))
    ∧ ((countArchiveRecords (now0 - 365 * years) il db).total ≠ 0 →
        strLower resp = "yes" →
        archiveHandle years false true il now0 now1 resp db
          = (CmdOutcome.completed (archiveRecords (now0 - 365 * years) now1 il db).2,
             (archiveRecords (now0 - 365 * years) now1 il db).1))
    ∧ ((countArchiveRecords (now0 - 365 * years) il db).total ≠ 0 →
        strLower resp ≠ "yes" →
        archiveHandle years false true il now0 now1 resp db
          = (CmdOutcome.cancelled, db))
    ∧ ((countRestoreRecords ra rt d1 d2 db).total = 0 →
        restoreHandle ⟨false, true, ra, rt, df, dt⟩ resp db
          = (CmdOutcome.nothingToDo, db))
    ∧ ((countRestoreRecords ra rt d1 d2 db).total ≠ 0 → strLower resp = "yes" →
        restoreHandle ⟨false, true, ra, rt, df, dt⟩ resp db
          = (CmdOutcome.completed (restoreRecords ra rt d1 d2 db).2,
             (restoreRecords ra rt d1 d2 db).1))
    ∧ ((countRestoreRecords ra rt d1 d2 db).total ≠ 0 → strLower resp ≠ "yes" →
        restoreHandle ⟨false, true, ra, rt, df, dt⟩ resp db
          = (CmdOutcome.cancelled, db)) := by
  refine ⟨?_, ?_, ?_, ?_, ?_, ?_, ?_, ?_⟩
  · unfold confirmArchiving confirmResponse
    split_ifs with h <;> simp [h]
  · unfold confirmRestoration confirmResponse
    split_ifs with h <;> simp [h]
  · intro h0
    unfold archiveHandle
    simp [hyears, h0]
  · intro h0 hy
    unfold archiveHandle confirmResponse
    simp [hyears, h0, hy]
  · intro h0 hy
    have hy2 : (strLower resp == "yes") = false := beq_eq_false_iff_ne.mpr hy
    unfold archiveHandle confirmResponse
    simp [hyears, h0, hy2]
  · intro h0
    unfold restoreHandle
    simp [hsel, h1, h2, h0]
  · intro h0 hy
    unfold restoreHandle confirmResponse
    simp [hsel, h1, h2, h0, hy]
  · intro h0 hy
    have hy2 : (strLower resp == "yes") = false := beq_eq_false_iff_ne.mpr hy
    unfold restoreHandle confirmResponse
    simp [hsel, h1, h2, h0, hy2]

/-- Witness for C5: a concrete execute run over `dbAR` (previewed total 2)
with the mixed-case response `YES` proceeds to mutate, demonstrating the
case-insensitive match. -/
theorem C5_witness :
    archiveHandle 2 false true false 10000 10000 "YES" dbAR
      = (CmdOutcome.completed (archiveRecords (10000 - 365 * 2) 10000 false dbAR).2,
         (archiveRecords (10000 - 365 * 2) 10000 false dbAR).1) :=
  (C5_confirmation_gate 2 10000 10000 false "YES" dbAR true none none none none none
      (by decide) (by decide) rfl rfl).2.2.2.1 (by decide) (by decide)

/-- Claim C6: the pairing invariant (`archived_at` non-null iff
`is_archived` true) is preserved by `_archive_records` and
`_restore_records`: the archive update writes `is_archived=True` together
with a non-null `archived_at`, and the restore update writes
`is_archived=False` together with `archived_at=None`, in the same
statement. -/
theorem dbKind_pairing (db : DB) (h : db.pairingOK) (t : RType) :
    ∀ r ∈ dbKind t db, r.pairingOK := by
  obtain ⟨h1, h2, h3, h4, h5⟩ := h
  cases t <;> assumption

theorem restoreRecords_kind (ra : Bool) (rt : Option RType) (d1 d2 : Option Int)
    (db : DB) (t : RType) :
    dbKind t (restoreRecords ra rt d1 d2 db).1
      = if selects ra rt t then restoreKind d1 d2 (dbKind t db)
        else dbKind t db := by
  cases t <;> rfl

theorem C6_pairing_preserved (cutoff now : Int) (il ra : Bool)
    (rt : Option RType) (d1 d2 : Option Int) (db : DB) (h : db.pairingOK) :
    ((archiveRecords cutoff now il db).1).pairingOK
    ∧ ((restoreRecords ra rt d1 d2 db).1).pairingOK := by
  constructor
  · refine ⟨archiveKind_pairing _ _ _ (dbKind_pairing db h .assessments),
      archiveKind_pairing _ _ _ (dbKind_pairing db h .reports),
      archiveKind_pairing _ _ _ (dbKind_pairing db h .certificates),
      archiveKind_pairing _ _ _ (dbKind_pairing db h .flood_activities), ?_⟩
    show ∀ r ∈ (if il then archiveKind cutoff now db.user_logs else db.user_logs),
      r.pairingOK
    split_ifs
    · exact archiveKind_pairing _ _ _ (dbKind_pairing db h .user_logs)
    · exact dbKind_pairing db h .user_logs
  · have key : ∀ t : RType,
        ∀ r ∈ dbKind t (restoreRecords ra rt d1 d2 db).1, r.pairingOK := by
      intro t
      rw [restoreRecords_kind]
      split_ifs
      · exact restoreKind_pairing _ _ _ (dbKind_pairing db h t)
      · exact dbKind_pairing db h t
    exact ⟨key .assessments, key .reports, key .certificates,
      key .flood_activities, key .user_logs⟩

/-- Witness for C6: the fixture store `dbAR` satisfies the pairing
invariant, and both operations keep it. -/
theorem C6_witness :
    ((archiveRecords 10 5 false dbAR).1).pairingOK
    ∧ ((restoreRecords true none none none dbAR).1).pairingOK :=
  C6_pairing_preserved 10 5 false true none none none dbAR (by decide)

/-- Claim C7: a restore with `type=reports` and an inclusive date range
restores exactly the report rows that are currently archived and whose
timestamp lies in `[date_from, date_to]` (both bounds inclusive); report
rows outside the window or not archived, and every row of every other
kind, are unchanged. -/
theorem C7_restore_reports_window (d1 d2 : Int) (db : DB) :
    (restoreRecords false (some RType.reports) (some d1) (some d2) db).1.assessments
        = db.assessments
    ∧ (restoreRecords false (some RType.reports) (some d1) (some d2) db).1.certificates
        = db.certificates
    ∧ (restoreRecords false (some RType.reports) (some d1) (some d2) db).1.flood_activities
        = db.flood_activities
    ∧ (restoreRecords false (some RType.reports) (some d1) (some d2) db).1.user_logs
        = db.user_logs
    ∧ (restoreRecords false (some RType.reports) (some d1) (some d2) db).2.assessments = 0
    ∧ ∀ (i : Nat) (r : Record), db.reports[i]? = some r →
        ∃ r', (restoreRecords false (some RType.reports) (some d1) (some d2) db).1.reports[i]?
                = some r'
          ∧ (r.is_archived = true ∧ d1 ≤ r.timestamp ∧ r.timestamp ≤ d2 →
              r'.is_archived = false ∧ r'.archived_at = none
              ∧ r'.timestamp = r.timestamp ∧ r'.payload = r.payload)
          ∧ (¬(r.is_archived = true ∧ d1 ≤ r.timestamp ∧ r.timestamp ≤ d2) → r' = r) := by
  refine ⟨rfl, rfl, rfl, rfl, rfl, fun i r hi => ?_⟩
  refine ⟨restoreOne (some d1) (some d2) r, restoreKind_getElem _ _ _ _ _ hi, ?_, ?_⟩
  · intro hp
    rw [restoreOne_of_pred _ _ _ ((restorePred_some_iff d1 d2 r).2 hp)]
    exact ⟨rfl, rfl, rfl, rfl⟩
  · intro hn
    have hp : restorePred (some d1) (some d2) r = false := by
      rw [Bool.eq_false_iff, Ne, restorePred_some_iff]
      exact hn
    simp [restoreOne, hp]

/-- Claim C8: round-trip — a row that is active (`is_archived=false`,
`archived_at=null`) and is archived by `_archive_records` and then matched
by a restore selector comes back exactly to its original state: both
updates write only `is_archived` and `archived_at`, so the timestamp and
the kind-specific business fields are untouched. -/
theorem C8_round_trip (cutoff now : Int) (df dt : Option Int) (r : Record)
    (h0 : r.is_archived = false) (h1 : r.archived_at = none)
    (hmatch : restorePred df dt (archiveOne cutoff now r) = true) :
    restoreOne df dt (archiveOne cutoff now r) = r := by
  rw [restoreOne_of_pred _ _ _ hmatch]
  obtain ⟨ts, arch, aat, pl⟩ := r
  cases arch
  · cases aat
    · unfold archiveOne
      split_ifs <;> rfl
    · exact absurd h1 (by simp)
  · exact absurd h0 (by simp)

/-- Witness for C8: the concrete active row with timestamp 0 and payload
7, archived at cutoff 10 and restored with the unbounded selector. -/
theorem C8_witness :
    restoreOne none none (archiveOne 10 5 ⟨0, false, none, 7⟩)
      = ⟨0, false, none, 7⟩ :=
  C8_round_trip 10 5 none none ⟨0, false, none, 7⟩ rfl rfl (by decide)

end ArchiveRestore
